import Mathlib

/-!
# Verification of the EV charging station loading script (`04_data_loading.py`)

Shallow embedding of the data-cleaning pipeline (`load_and_clean_data`), the
database upsert logic (`load_data_to_database`) and the orchestration (`main`)
of the script, together with theorems settling the specification claims.

Modelling conventions:

* A CSV cell after `pd.read_csv` type inference is a `Cell`: missing (`NaN`),
  a parsed number, a parsed boolean (`read_csv` recognises `True`/`False`
  literals), a calendar date, or a leftover string.  An empty CSV field is
  read by pandas as `NaN`, i.e. `Cell.missing`.
* A dataframe row is a total function from column names to cells; which
  columns actually exist is recorded in `Frame.cols` (pandas operations only
  ever touch listed columns, so values at unlisted keys are inert).
* Machine floats are modelled as `ℚ`; `numpy`'s float→int64 cast truncates
  toward zero, modelled with `Int.div`.
* `sys.exit(1)` / raised exceptions are modelled as `Except.error`.
-/

set_option maxHeartbeats 1000000

namespace EvLoad

/-- A dataframe cell as produced by `pd.read_csv` type inference. -/
inductive Cell where
  | missing
  | num (q : ℚ)
  | boolv (b : Bool)
  | date (y m d : ℕ)
  | text (s : String)
  deriving DecidableEq, Repr

/-- `True` iff the cell is `NaN`/`NaT`/`None` in pandas terms. -/
def Cell.isMissing : Cell → Bool
  | .missing => true
  | _ => false

/-- Value of a non-empty all-digit character group, else `none`. -/
def digitsToNat? (cs : List Char) : Option ℕ :=
  match cs with
  | [] => none
  | _ =>
    cs.foldl
      (fun acc c =>
        match acc with
        | none => none
        | some n => if c.isDigit then some (n * 10 + (c.toNat - 48)) else none)
      (some 0)

/-- Parse a decimal string (optional sign, optional fractional part) to `ℚ`;
models what `pd.to_numeric` accepts on leftover strings. -/
def parseNumText (s : String) : Option ℚ :=
  let core : List Char → Option ℚ := fun t =>
    match t.splitOnP (fun c => c == '.') with
    | [a] => (digitsToNat? a).map (fun n => mkRat n 1)
    | [a, b] =>
      match digitsToNat? a, digitsToNat? b with
      | some n, some f => some (mkRat (n * 10 ^ b.length + f) (10 ^ b.length))
      | _, _ => none
    | _ => none
  match s.data with
  | '-' :: rest => (core rest).map (fun q => -q)
  | cs => core cs

/-- Parse an ISO `YYYY-MM-DD` string to a calendar date; models the string
inputs accepted by `pd.to_datetime` (integer epoch timestamps are out of
scope: no claim involves them). -/
def parseDateText (s : String) : Option (ℕ × ℕ × ℕ) :=
  match s.data.splitOnP (fun c => c == '-') with
  | [y, m, d] =>
    match digitsToNat? y, digitsToNat? m, digitsToNat? d with
    | some yn, some mn, some dn =>
      if 1 ≤ mn ∧ mn ≤ 12 ∧ 1 ≤ dn ∧ dn ≤ 31 then some (yn, mn, dn) else none
    | _, _, _ => none
  | _ => none

/-- `pd.to_datetime(·, errors='coerce')` on a cell. -/
def parseDateCell : Cell → Option (ℕ × ℕ × ℕ)
  | .date y m d => some (y, m, d)
  | .text s => parseDateText s
  | _ => none

/-- `pd.to_datetime(col, errors='coerce').dt.date` applied to one cell:
parse failure becomes `NaT`, i.e. missing. -/
def dateCoerce (c : Cell) : Cell :=
  match parseDateCell c with
  | some p => .date p.1 p.2.1 p.2.2
  | none => .missing

/-- `pd.to_numeric(·, errors='coerce')` applied to one cell. -/
def toNumericCell : Cell → Cell
  | .missing => .missing
  | .num q => .num q
  | .boolv b => .num (if b then 1 else 0)
  | .date _ _ _ => .missing
  | .text s =>
    match parseNumText s with
    | some q => .num q
    | none => .missing

/-- `.fillna(False).astype(bool)` applied to one cell: `NaN` becomes `False`,
every other value goes through Python truthiness. -/
def boolCoerce : Cell → Cell
  | .missing => .boolv false
  | .boolv b => .boolv b
  | .num q => .boolv (decide (q ≠ 0))
  | .date _ _ _ => .boolv true
  | .text s => .boolv (decide (s ≠ ""))

/-- `.astype('int64')` applied to a numeric cell: C-style truncation toward
zero (`Int.div`); non-numeric cells are unreachable at the call site. -/
def castInt64 : Cell → Cell
  | .num q => .num ((Int.tdiv q.num (q.den : ℤ) : ℤ) : ℚ)
  | c => c

/-- `str(value)` for one cell, as `.astype(str)` produces it
(`NaN` prints as `"nan"`).  The decimals pandas prints for floats are not
reproduced digit-for-digit; no claim depends on them. -/
def cellStr : Cell → String
  | .missing => "nan"
  | .num q => toString q
  | .boolv b => if b then "True" else "False"
  | .date y m d => toString y ++ "-" ++ toString m ++ "-" ++ toString d
  | .text s => s

/-- `.astype(str).replace('nan', '').replace('', None)` applied to one cell
(`Series.replace` replaces whole values, not substrings). -/
def textClean (c : Cell) : Cell :=
  let s := cellStr c
  let s1 := if s = "nan" then "" else s
  if s1 = "" then .missing else .text s1

/-- A dataframe row: a total assignment of cells to column names. -/
def RowF : Type := String → Cell

/-- Build a row from an association list; unlisted columns are missing. -/
def rowOf (l : List (String × Cell)) : RowF := fun c =>
  match l.find? (fun p => p.1 == c) with
  | some p => p.2
  | none => .missing

/-- Overwrite one column of a row. -/
def setCellF (r : RowF) (c : String) (v : Cell) : RowF := fun k =>
  if k = c then v else r k

/-- An in-memory dataframe: the list of existing columns plus the rows. -/
structure Frame where
  cols : List String
  rows : List RowF

/-- The `column_mapping` dict of `load_and_clean_data` (source line 50). -/
def column_mapping : List (String × String) :=
  [("ID", "station_id"), ("latitude", "latitude"), ("longitude", "longitude"),
   ("city", "city"), ("postal_code", "postal_code"), ("country", "country"),
   ("access_comments", "access_comments"),
   ("num_charging_points", "num_charging_points"),
   ("is_operational", "is_operational"),
   ("last_verified_date", "last_verified_date"),
   ("creation_date", "creation_date"), ("usage_cost", "usage_cost"),
   ("is_pay_at_location", "is_pay_at_location"),
   ("is_membership_required", "is_membership_required"),
   ("operator", "operator"), ("county", "county"),
   ("original_text", "original_text"), ("is_free", "is_free"),
   ("is_paid_unspecified", "is_paid_unspecified"),
   ("is_inaccessible", "is_inaccessible"),
   ("ac_price_huf_kwh", "ac_price_huf_kwh"),
   ("dc_price_huf_kwh", "dc_price_huf_kwh"),
   ("time_based_price_huf_min", "time_based_price_huf_min"),
   ("additional_fees", "additional_fees"), ("notes", "notes"),
   ("tesla_type", "tesla_type")]

/-- `bool_cols` (source line 86). -/
def bool_cols : List String :=
  ["is_operational", "is_free", "is_paid_unspecified", "is_inaccessible",
   "is_pay_at_location", "is_membership_required"]

/-- `date_cols` (source line 93). -/
def date_cols : List String := ["last_verified_date", "creation_date"]

/-- `numeric_cols` (source line 99). -/
def numeric_cols : List String :=
  ["ac_price_huf_kwh", "dc_price_huf_kwh", "time_based_price_huf_min"]

/-- `text_cols` (source line 119). -/
def text_cols : List String :=
  ["city", "county", "country", "operator", "usage_cost", "access_comments",
   "notes", "tesla_type", "original_text"]

/-- `db_columns` (source line 126). -/
def db_columns : List String :=
  ["station_id", "latitude", "longitude", "city", "county", "postal_code",
   "country", "operator", "is_operational", "num_charging_points", "is_free",
   "is_paid_unspecified", "is_inaccessible", "is_pay_at_location",
   "is_membership_required", "ac_price_huf_kwh", "dc_price_huf_kwh",
   "time_based_price_huf_min", "additional_fees", "usage_cost",
   "last_verified_date", "creation_date", "access_comments", "notes",
   "tesla_type", "original_text"]

/-- Forward application of a rename mapping to a column name. -/
def applyMap (m : List (String × String)) (c : String) : String :=
  match m.find? (fun p => p.1 == c) with
  | some p => p.2
  | none => c

/-- Which source column a renamed column came from (used to move row data
under the new names). -/
def invApply (m : List (String × String)) (c : String) : String :=
  match m.find? (fun p => p.2 == c) with
  | some p => p.1
  | none => c

/-- Source lines 80–81: restrict the mapping to existing columns, then
`df.rename(columns=existing_columns)`. -/
def renameStep (F : Frame) : Frame :=
  let m := column_mapping.filter (fun p => decide (p.1 ∈ F.cols))
  { cols := F.cols.map (fun c => applyMap m c),
    rows := F.rows.map (fun r => fun c => r (invApply m c)) }

/-- `df[col] = f(df[col])` for an existing column; a no-op when the column
does not exist (call sites either guard with `if col in df.columns` or are
only reached when the column exists). -/
def mapCol (F : Frame) (c : String) (f : Cell → Cell) : Frame :=
  if c ∈ F.cols then
    { F with rows := F.rows.map (fun r => setCellF r c (f (r c))) }
  else F

/-- A `for col in cols: if col in df.columns: df[col] = coerce(df[col])`
loop (source lines 88–90, 94–96, 100–102, 120–123). -/
def coerceCols (cs : List String) (f : Cell → Cell) (F : Frame) : Frame :=
  cs.foldl (fun G c => mapCol G c f) F

/-- `df.dropna(subset=cs)`: a `KeyError` (escalated by the enclosing
`except` to `sys.exit(1)`) when some column is absent, else the rows with a
missing value in one of the columns are removed. -/
def dropnaSubset (cs : List String) (F : Frame) : Except String Frame :=
  if cs.all (fun c => decide (c ∈ F.cols)) then
    .ok { F with rows := F.rows.filter (fun r => cs.all (fun c => !(r c).isMissing)) }
  else .error "exit(1): KeyError on dropna subset"

/-- Source lines 104–108: `to_numeric` on `station_id`, drop rows with an
unparseable id, cast to `int64` — all guarded by the column existing. -/
def idStep (F : Frame) : Frame :=
  if "station_id" ∈ F.cols then
    let F1 := mapCol F "station_id" toNumericCell
    let F2 := { F1 with
      rows := F1.rows.filter (fun r => !(r "station_id").isMissing) }
    mapCol F2 "station_id" castInt64
  else F

/-- Source lines 110–116: drop rows with missing coordinates, parse both
coordinate columns, drop rows whose coordinates failed to parse.  The two
`dropna` calls raise `KeyError` when a coordinate column is absent. -/
def coordStep (F : Frame) : Except String Frame := do
  let F1 ← dropnaSubset ["latitude", "longitude"] F
  let F2 := mapCol F1 "latitude" toNumericCell
  let F3 := mapCol F2 "longitude" toNumericCell
  dropnaSubset ["latitude", "longitude"] F3

/-- Source lines 125–135: keep only schema columns present in the frame. -/
def projStep (F : Frame) : Frame :=
  { cols := db_columns.filter (fun c => decide (c ∈ F.cols)), rows := F.rows }

/-- `load_and_clean_data` (source lines 43–145).  `csv = none` models a path
that does not resolve (`FileNotFoundError`); every failure is `sys.exit(1)`,
modelled as `Except.error`. -/
def load_and_clean_data (csv : Option Frame) : Except String Frame :=
  match csv with
  | none => .error "exit(1): CSV file not found"
  | some df =>
    (do
      let df1 := renameStep df
      let df2 := coerceCols bool_cols boolCoerce df1
      let df3 := coerceCols date_cols dateCoerce df2
      let df4 := coerceCols numeric_cols toNumericCell df3
      let df5 := idStep df4
      let df6 ← coordStep df5
      let df7 := coerceCols text_cols textClean df6
      pure (projStep df7) : Except String Frame)

/-- Row count of the cleaned output, `none` when cleaning exits. -/
def cleanRowCount (csv : Option Frame) : Option ℕ :=
  match load_and_clean_data csv with
  | .ok G => some G.rows.length
  | .error _ => none

/-- Cell at row `i`, column `c` of the cleaned output. -/
def cleanedCell (csv : Option Frame) (i : ℕ) (c : String) : Option Cell :=
  match load_and_clean_data csv with
  | .ok G => (G.rows.get? i).map (fun r => r c)
  | .error _ => none

/-- The recognised source column names (keys of `column_mapping`). -/
def srcCols : List String := column_mapping.map (fun p => p.1)

/-- The canonical column names in source order (values of `column_mapping`). -/
def canonCols : List String := column_mapping.map (fun p => p.2)

/-- The columns a frame has after the rename step. -/
def renamedCols (cols : List String) : List String :=
  cols.map (fun c => applyMap (column_mapping.filter (fun p => decide (p.1 ∈ cols))) c)

/-! ## Row-level normal form of the cleaning pipeline

Each frame-level step acts on rows pointwise (plus row filtering); the
following row transformers are those pointwise actions, used to state the
pipeline's `filter`/`map` normal form. -/

/-- Pointwise action of `renameStep` on a full-column frame. -/
def renameRowF (r : RowF) : RowF := fun c => r (invApply column_mapping c)

/-- Pointwise action of a `coerceCols cs f` pass when all of `cs` exist. -/
def applyColsAll (cs : List String) (f : Cell → Cell) (r : RowF) : RowF :=
  cs.foldl (fun s c => setCellF s c (f (s c))) r

/-- `pd.to_numeric` on the `station_id` column of one row. -/
def idNumRowF (r : RowF) : RowF :=
  setCellF r "station_id" (toNumericCell (r "station_id"))

/-- `astype('int64')` on the `station_id` column of one row. -/
def idCastRowF (r : RowF) : RowF :=
  setCellF r "station_id" (castInt64 (r "station_id"))

/-- `pd.to_numeric` on the `latitude` column of one row. -/
def latRowF (r : RowF) : RowF :=
  setCellF r "latitude" (toNumericCell (r "latitude"))

/-- `pd.to_numeric` on the `longitude` column of one row. -/
def lonRowF (r : RowF) : RowF :=
  setCellF r "longitude" (toNumericCell (r "longitude"))

/-- The composite per-row transformation of the whole cleaning pipeline on a
full-column frame, in source order. -/
def cleanRowF (r : RowF) : RowF :=
  applyColsAll text_cols textClean
    (lonRowF (latRowF (idCastRowF (idNumRowF
      (applyColsAll numeric_cols toNumericCell
        (applyColsAll date_cols dateCoerce
          (applyColsAll bool_cols boolCoerce (renameRowF r))))))))

/-- Survival predicate of the pipeline on a full-column frame: the row is
kept iff its `ID` and both coordinates parse as numbers. -/
def survive (r : RowF) : Bool :=
  !(toNumericCell (r "ID")).isMissing &&
    (!(toNumericCell (r "latitude")).isMissing &&
      !(toNumericCell (r "longitude")).isMissing)

/-! ## Definitions following the specification's words

These are deliberately written from the claim/spec text (not the source) so
that the source-derived behaviour can be compared against them. -/

/-- Spec wording for claim C1: the identifier "parses as an integer":
the value is numeric with an integral value. -/
def specIntegerId (c : Cell) : Bool :=
  match toNumericCell c with
  | .num q => decide (q.den = 1)
  | _ => false

/-- Claim C1 survival as written: integer-parsing identifier and two
number-parsing coordinates. -/
def surviveSpecInt (r : RowF) : Bool :=
  specIntegerId (r "ID") &&
    (!(toNumericCell (r "latitude")).isMissing &&
      !(toNumericCell (r "longitude")).isMissing)

/-- Claim C1 as written, over full-column frames: the cleaned set holds
exactly the rows whose identifier parses as an integer and whose
coordinates parse as numbers. -/
def C1_asWritten : Prop :=
  ∀ rows : List RowF,
    cleanRowCount (some ⟨srcCols, rows⟩) =
      some ((rows.filter surviveSpecInt).length)

/-- Spec wording for claim C2: a cell "parses as a boolean" only when the
CSV reader already recognised a boolean literal; anything else (except
missing) is unparseable. -/
def specBoolParse : Cell → Option Bool
  | .boolv b => some b
  | _ => none

/-- Claim C2 as written: a missing or unparseable source value in a boolean
column resolves to `false` in the cleaned output. -/
def C2_asWritten : Prop :=
  ∀ c : Cell, specBoolParse c = none → boolCoerce c = .boolv false

/-- Claim C5 as written: the cleaning pipeline proceeds without error for
any subset of the recognised source columns. -/
def C5_asWritten : Prop :=
  ∀ cols : List String, ∀ rows : List RowF,
    cols ⊆ srcCols →
      ∃ G, load_and_clean_data (some ⟨cols, rows⟩) = .ok G

/-! ## Upserter (`load_data_to_database`, source lines 147–206) -/

/-- The upsert conflict key of a stored row. -/
def rowId (r : RowF) : Cell := r "station_id"

/-- Whether two rows collide on the `station_id` primary key. -/
def sameId (a b : RowF) : Bool := decide (rowId a = rowId b)

/-- The columns updated by the `ON CONFLICT ... DO UPDATE SET` statement
(source lines 175–185). -/
def mutable_cols : List String :=
  ["latitude", "longitude", "city", "county", "postal_code", "country",
   "operator", "is_operational", "num_charging_points", "last_verified_date"]

/-- `DO UPDATE SET` applied to one conflicting pair: the pre-existing row
`t` with the mutable columns overwritten from the incoming row `r`. -/
def mergeRow (t r : RowF) : RowF :=
  mutable_cols.foldl (fun s c => setCellF s c (r c)) t

/-- One row of `INSERT ... ON CONFLICT (station_id) DO UPDATE`: update the
colliding stored rows, else append. -/
def upsert1 (tbl : List RowF) (r : RowF) : List RowF :=
  if tbl.any (fun t => sameId t r) then
    tbl.map (fun t => if sameId t r then mergeRow t r else t)
  else tbl ++ [r]

/-- The whole conflict-resolving insert of a batch, row by row. -/
def upsertAll (tbl : List RowF) (batch : List RowF) : List RowF :=
  batch.foldl upsert1 tbl

/-- Whether the primary-path bulk `to_sql(..., if_exists='append')` succeeds:
no incoming id collides with a stored id and the batch has no internal id
duplicates (either collision makes the insert raise a unique-constraint
violation). -/
def bulkOk (tbl batch : List RowF) : Bool :=
  decide ((batch.map rowId).Nodup) &&
    batch.all (fun r => tbl.all (fun t => !sameId t r))

/-- `load_data_to_database` (source lines 147–206): the bulk
`to_sql(..., if_exists='append')` appends the batch when it hits no
primary-key collision.  On a collision the driver's `UniqueViolation`
surfaces wrapped as `sqlalchemy.exc.IntegrityError` (pandas writes through
the SQLAlchemy engine), which is not a subclass of `psycopg2.IntegrityError`,
so the handler on source line 161 never matches and the staged
`INSERT ... ON CONFLICT` fallback (lines 166–196, modelled by `runFallback`)
is unreachable from this path: the error falls through to
`except SQLAlchemyError` (line 201), is logged and re-raised, and the failed
chunked insert is rolled back, leaving the `stations` table `tbl`
unchanged. -/
def load_data_to_database (tbl batch : List RowF) : Except String (List RowF) :=
  if bulkOk tbl batch then .ok (tbl ++ batch)
  else .error "raise: sqlalchemy.exc.IntegrityError (not caught by line 161)"

/-! ## Transactional model of the conflict-reconciliation fallback

The fallback (source lines 166–196) runs four connection operations inside
one SQLAlchemy connection: stage the batch into `temp_stations`, run the
merging `INSERT`, drop the scratch table, `conn.commit()`.  Closing the
connection without a commit rolls everything back. -/

/-- The connection operations issued by the fallback. -/
inductive DbOp where
  | writeTemp (rows : List RowF)
  | execMergeTemp
  | execDropTemp
  | commitTx

/-- Store state: the durable (committed) table, the in-transaction view of
the table, and the in-transaction scratch table. -/
structure DbState where
  committed : List RowF
  work : List RowF
  temp : Option (List RowF)

/-- Effect of one successfully executed operation. -/
def stepOp (st : DbState) : DbOp → DbState
  | .writeTemp rs => { st with temp := some rs }
  | .execMergeTemp => { st with work := upsertAll st.work (st.temp.getD []) }
  | .execDropTemp => { st with temp := none }
  | .commitTx => { st with committed := st.work }

/-- Execute operations in order; `fails` injects a store-level failure at
the matching position (an absent entry means success).  On failure the
remaining operations are skipped — the raised error carries the state, whose
`committed` table is what survives the rollback on connection close. -/
def runOps : DbState → List DbOp → List Bool → Except (String × DbState) DbState
  | st, [], _ => .ok st
  | st, op :: ops, [] => runOps (stepOp st op) ops []
  | st, op :: ops, f :: fs =>
    if f then .error ("exception during fallback", st)
    else runOps (stepOp st op) ops fs

/-- The operation sequence of the fallback `try` block. -/
def fallbackProgram (batch : List RowF) : List DbOp :=
  [.writeTemp batch, .execMergeTemp, .execDropTemp, .commitTx]

/-- Run the conflict-reconciliation fallback against table `tbl`. -/
def runFallback (tbl batch : List RowF) (fs : List Bool) :
    Except (String × DbState) DbState :=
  runOps ⟨tbl, tbl, none⟩ (fallbackProgram batch) fs

/-! ## Orchestration (`main`, source lines 238–254) -/

/-- `main` after a successful database connection: clean, then load.
`csv = none` models an unresolvable source path.  Returns the final
`stations` table and the process exit code (cleaning failures call
`sys.exit(1)` before any database write; an error re-raised out of
`load_data_to_database` is uncaught in `main` and kills the run, the failed
insert having been rolled back). -/
def runMain (csv : Option Frame) (tbl : List RowF) : List RowF × ℕ :=
  match load_and_clean_data csv with
  | .error _ => (tbl, 1)
  | .ok g =>
    match load_data_to_database tbl g.rows with
    | .ok t2 => (t2, 0)
    | .error _ => (tbl, 1)

/-! ## Concrete fixtures used by witnesses and counterexamples -/

/-- The input row of the spec scenario for claim C9 as read by `read_csv`
(the empty `is_operational` field reads as `NaN`). -/
def row9 : RowF :=
  rowOf [("ID", .num 7), ("latitude", .num (mkRat 95 2)),
         ("longitude", .num (mkRat 381 20)),
         ("is_operational", .missing), ("num_charging_points", .num 2)]

/-- The claim C9 scenario frame. -/
def frame9 : Frame :=
  ⟨["ID", "latitude", "longitude", "is_operational", "num_charging_points"], [row9]⟩

/-- A row whose `ID` field reads as the non-integral number `7.5`. -/
def rowHalf : RowF :=
  rowOf [("ID", .num (mkRat 15 2)), ("latitude", .num 10), ("longitude", .num 20)]

/-- A row whose `is_operational` field is the boolean-unparseable string
`"no"`. -/
def rowNo : RowF :=
  rowOf [("ID", .num 1), ("latitude", .num 1), ("longitude", .num 2),
         ("is_operational", .text "no")]

/-- A valid row with an unparseable date and an unparseable price. -/
def rowBad : RowF :=
  rowOf [("ID", .num 3), ("latitude", .num 1), ("longitude", .num 2),
         ("last_verified_date", .text "soon"), ("ac_price_huf_kwh", .text "cheap")]

/-- A row whose `is_free` field is a non-empty, boolean-unparseable string. -/
def rowFalseText : RowF := rowOf [("is_free", .text "false-ish")]

/-- A valid row whose `notes` field is the literal string `"nan"`. -/
def rowNanNotes : RowF :=
  rowOf [("ID", .num 1), ("latitude", .num 1), ("longitude", .num 2),
         ("notes", .text "nan")]

/-- A stored row colliding with `r3incoming` on `station_id`. -/
def t3stored : RowF :=
  rowOf [("station_id", .num 7), ("city", .text "Old"),
         ("notes", .text "keep me"), ("ac_price_huf_kwh", .num 120)]

/-- An incoming row colliding with `t3stored` on `station_id`. -/
def r3incoming : RowF :=
  rowOf [("station_id", .num 7), ("city", .text "New"),
         ("notes", .text "drop me"), ("ac_price_huf_kwh", .num 999)]

/-- A two-row batch with distinct station ids. -/
def b4 : List RowF :=
  [rowOf [("station_id", .num 1), ("city", .text "A")],
   rowOf [("station_id", .num 2), ("city", .text "B")]]

/-- Whether the cleaning pipeline exits the process. -/
def cleanFails (csv : Option Frame) : Bool :=
  match load_and_clean_data csv with
  | .ok _ => false
  | .error _ => true

end EvLoad

namespace EvLoad

/-! ## General evaluation lemmas -/

theorem foldl_setCellF_eval (cs : List String) (r t : RowF) (k : String) :
    (cs.foldl (fun s c => setCellF s c (r c)) t) k
      = if k ∈ cs then r k else t k := by
  induction cs generalizing t with
  | nil => simp
  | cons c cs ih =>
    simp only [List.foldl_cons, ih]
    by_cases h : k ∈ cs
    · simp [h, List.mem_cons]
    · by_cases hk : k = c
      · subst hk; simp [h, setCellF]
      · simp [h, hk, setCellF, List.mem_cons]

theorem mergeRow_eval (t r : RowF) (k : String) :
    mergeRow t r k = if k ∈ mutable_cols then r k else t k :=
  foldl_setCellF_eval mutable_cols r t k

theorem rowId_mergeRow (t r : RowF) : rowId (mergeRow t r) = rowId t := by
  rw [rowId, mergeRow, foldl_setCellF_eval, if_neg]
  · rfl
  · decide

/-! ## Frame-level step lemmas (full-column frames) -/

theorem mapCol_pos (C : List String) (rows : List RowF) (c : String)
    (f : Cell → Cell) (h : c ∈ C) :
    mapCol ⟨C, rows⟩ c f = ⟨C, rows.map (fun r => setCellF r c (f (r c)))⟩ := by
  rw [mapCol, if_pos h]

theorem coerceCols_all (cs : List String) (f : Cell → Cell) (C : List String)
    (rows : List RowF) (h : ∀ c ∈ cs, c ∈ C) :
    coerceCols cs f ⟨C, rows⟩ = ⟨C, rows.map (applyColsAll cs f)⟩ := by
  induction cs generalizing rows with
  | nil =>
    have : rows.map (applyColsAll [] f) = rows := List.map_id' rows
    rw [coerceCols, List.foldl_nil, this]
  | cons c cs ih =>
    rw [coerceCols, List.foldl_cons,
      mapCol_pos C rows c f (h c (List.mem_cons_self c cs))]
    have htail : ∀ x ∈ cs, x ∈ C := fun x hx => h x (List.mem_cons_of_mem c hx)
    have := ih (rows.map (fun r => setCellF r c (f (r c)))) htail
    rw [coerceCols] at this
    rw [this, List.map_map]
    rfl

theorem renameStep_full (rows : List RowF) :
    renameStep ⟨srcCols, rows⟩ = ⟨canonCols, rows.map renameRowF⟩ := rfl

theorem idStep_canon (rows : List RowF) :
    idStep ⟨canonCols, rows⟩ =
      ⟨canonCols,
        ((rows.map idNumRowF).filter
          (fun r => !(r "station_id").isMissing)).map idCastRowF⟩ := rfl

theorem coordStep_canon (rows : List RowF) :
    coordStep ⟨canonCols, rows⟩ =
      .ok ⟨canonCols,
        ((((rows.filter
          (fun r => ["latitude", "longitude"].all fun c => !(r c).isMissing)).map
            latRowF).map lonRowF).filter
              (fun r => ["latitude", "longitude"].all fun c => !(r c).isMissing))⟩ := rfl

theorem projStep_canon (rows : List RowF) :
    projStep ⟨canonCols, rows⟩ = ⟨db_columns, rows⟩ := rfl

/-! ## Pointwise evaluation of the row transformers -/

theorem renameRowF_sid (r : RowF) : renameRowF r "station_id" = r "ID" := rfl
theorem renameRowF_lat (r : RowF) : renameRowF r "latitude" = r "latitude" := rfl
theorem renameRowF_lon (r : RowF) : renameRowF r "longitude" = r "longitude" := rfl
theorem boolF_sid (r : RowF) : applyColsAll bool_cols boolCoerce r "station_id" = r "station_id" := rfl
theorem boolF_lat (r : RowF) : applyColsAll bool_cols boolCoerce r "latitude" = r "latitude" := rfl
theorem boolF_lon (r : RowF) : applyColsAll bool_cols boolCoerce r "longitude" = r "longitude" := rfl
theorem dateF_sid (r : RowF) : applyColsAll date_cols dateCoerce r "station_id" = r "station_id" := rfl
theorem dateF_lat (r : RowF) : applyColsAll date_cols dateCoerce r "latitude" = r "latitude" := rfl
theorem dateF_lon (r : RowF) : applyColsAll date_cols dateCoerce r "longitude" = r "longitude" := rfl
theorem priceF_sid (r : RowF) : applyColsAll numeric_cols toNumericCell r "station_id" = r "station_id" := rfl
theorem priceF_lat (r : RowF) : applyColsAll numeric_cols toNumericCell r "latitude" = r "latitude" := rfl
theorem priceF_lon (r : RowF) : applyColsAll numeric_cols toNumericCell r "longitude" = r "longitude" := rfl
theorem idNumRowF_sid (r : RowF) : idNumRowF r "station_id" = toNumericCell (r "station_id") := rfl
theorem idNumRowF_lat (r : RowF) : idNumRowF r "latitude" = r "latitude" := rfl
theorem idNumRowF_lon (r : RowF) : idNumRowF r "longitude" = r "longitude" := rfl
theorem idCastRowF_lat (r : RowF) : idCastRowF r "latitude" = r "latitude" := rfl
theorem idCastRowF_lon (r : RowF) : idCastRowF r "longitude" = r "longitude" := rfl
theorem latRowF_lat (r : RowF) : latRowF r "latitude" = toNumericCell (r "latitude") := rfl
theorem latRowF_lon (r : RowF) : latRowF r "longitude" = r "longitude" := rfl
theorem lonRowF_lat (r : RowF) : lonRowF r "latitude" = r "latitude" := rfl
theorem lonRowF_lon (r : RowF) : lonRowF r "longitude" = toNumericCell (r "longitude") := rfl

theorem notMissing_toNumeric_absorb (v : Cell) :
    (!v.isMissing && !(toNumericCell v).isMissing) = !(toNumericCell v).isMissing := by
  cases v with
  | text s =>
    show (true && _) = _
    rw [Bool.true_and]
  | missing => rfl
  | num q => rfl
  | boolv b => rfl
  | date y m d => rfl

/-! ## The pipeline in `filter`/`map` normal form -/

theorem cleanRows_normal (rows : List RowF) :
    ((((((((((((rows.map renameRowF).map (applyColsAll bool_cols boolCoerce)).map
      (applyColsAll date_cols dateCoerce)).map
        (applyColsAll numeric_cols toNumericCell)).map idNumRowF).filter
          (fun r => !(r "station_id").isMissing)).map idCastRowF).filter
            (fun r => ["latitude", "longitude"].all fun c => !(r c).isMissing)).map
              latRowF).map lonRowF).filter
                (fun r => ["latitude", "longitude"].all fun c => !(r c).isMissing)).map
                  (applyColsAll text_cols textClean))
      = (rows.filter survive).map cleanRowF := by
  simp only [List.map_map, List.filter_map, List.filter_filter]
  congr 1
  apply List.filter_congr
  intro a _
  simp only [Function.comp_apply, renameRowF_sid, renameRowF_lat, renameRowF_lon,
    boolF_sid, boolF_lat, boolF_lon, dateF_sid, dateF_lat, dateF_lon,
    priceF_sid, priceF_lat, priceF_lon, idNumRowF_sid, idNumRowF_lat,
    idNumRowF_lon, idCastRowF_lat, idCastRowF_lon, latRowF_lat, latRowF_lon,
    lonRowF_lat, lonRowF_lon, List.all_cons, List.all_nil, Bool.and_true, survive]
  have h1 := notMissing_toNumeric_absorb (a "latitude")
  have h2 := notMissing_toNumeric_absorb (a "longitude")
  revert h1 h2
  generalize (toNumericCell (a "ID")).isMissing = b1
  generalize (toNumericCell (a "latitude")).isMissing = b2
  generalize (toNumericCell (a "longitude")).isMissing = b3
  generalize (a "latitude").isMissing = b4
  generalize (a "longitude").isMissing = b5
  intro h1 h2
  cases b1 <;> cases b2 <;> cases b3 <;> cases b4 <;> cases b5 <;> simp_all

/-- The whole cleaning pipeline on a full-column frame: it keeps exactly the
rows whose identifier and coordinates parse as numbers, transformed
pointwise by `cleanRowF`. -/
theorem clean_srcCols_eq (rows : List RowF) :
    load_and_clean_data (some ⟨srcCols, rows⟩) =
      .ok ⟨db_columns, (rows.filter survive).map cleanRowF⟩ := by
  show ((coordStep (idStep (coerceCols numeric_cols toNumericCell
      (coerceCols date_cols dateCoerce (coerceCols bool_cols boolCoerce
        (renameStep ⟨srcCols, rows⟩)))))).bind
    (fun df6 => pure (projStep (coerceCols text_cols textClean df6)))) = _
  rw [renameStep_full,
    coerceCols_all bool_cols boolCoerce canonCols _ (by decide),
    coerceCols_all date_cols dateCoerce canonCols _ (by decide),
    coerceCols_all numeric_cols toNumericCell canonCols _ (by decide),
    idStep_canon, coordStep_canon]
  show Except.ok (projStep (coerceCols text_cols textClean _)) = _
  rw [coerceCols_all text_cols textClean canonCols _ (by decide), projStep_canon]
  exact congrArg (fun R => Except.ok (Frame.mk db_columns R)) (cleanRows_normal rows)

/-! ## Column bookkeeping for partial frames -/

theorem mapCol_cols (F : Frame) (c : String) (f : Cell → Cell) :
    (mapCol F c f).cols = F.cols := by
  rw [mapCol]; split <;> rfl

theorem coerceCols_cols (cs : List String) (f : Cell → Cell) (F : Frame) :
    (coerceCols cs f F).cols = F.cols := by
  induction cs generalizing F with
  | nil => rfl
  | cons c cs ih =>
    rw [show coerceCols (c :: cs) f F = coerceCols cs f (mapCol F c f) from rfl,
      ih, mapCol_cols]

theorem idStep_cols (F : Frame) : (idStep F).cols = F.cols := by
  rw [idStep]
  split
  · rw [mapCol_cols]
    exact mapCol_cols F _ _
  · rfl

theorem dropnaSubset_pos (cs C : List String) (rows : List RowF)
    (h : ∀ c ∈ cs, c ∈ C) :
    dropnaSubset cs ⟨C, rows⟩ =
      .ok ⟨C, rows.filter (fun r => cs.all fun c => !(r c).isMissing)⟩ := by
  rw [dropnaSubset, if_pos]
  rw [List.all_eq_true]
  intro c hc
  exact decide_eq_true (h c hc)

theorem coordStep_pos (C : List String) (rows : List RowF)
    (hlat : "latitude" ∈ C) (hlon : "longitude" ∈ C) :
    coordStep ⟨C, rows⟩ = .ok ⟨C,
      (((rows.filter
        (fun r => ["latitude", "longitude"].all fun c => !(r c).isMissing)).map
          (fun r => setCellF r "latitude" (toNumericCell (r "latitude")))).map
            (fun r => setCellF r "longitude" (toNumericCell (r "longitude")))).filter
              (fun r => ["latitude", "longitude"].all fun c => !(r c).isMissing)⟩ := by
  have hmem : ∀ c ∈ ["latitude", "longitude"], c ∈ C := by
    intro c hc
    fin_cases hc
    · exact hlat
    · exact hlon
  have h1 : coordStep ⟨C, rows⟩ =
      (dropnaSubset ["latitude", "longitude"] ⟨C, rows⟩).bind
        (fun F1 => dropnaSubset ["latitude", "longitude"]
          (mapCol (mapCol F1 "latitude" toNumericCell) "longitude" toNumericCell)) := rfl
  rw [h1, dropnaSubset_pos _ _ _ hmem]
  show dropnaSubset ["latitude", "longitude"]
    (mapCol (mapCol ⟨C, _⟩ "latitude" toNumericCell) "longitude" toNumericCell) = _
  rw [mapCol_pos C _ _ _ hlat, mapCol_pos C _ _ _ hlon,
    dropnaSubset_pos _ _ _ hmem]

theorem applyMap_cons (p : String × String) (m : List (String × String))
    (c : String) :
    applyMap (p :: m) c = if p.1 == c then p.2 else applyMap m c := by
  cases h : p.1 == c <;> simp [applyMap, List.find?, h]

theorem applyMap_filter_mem (m : List (String × String)) (cols : List String)
    (c : String) (h : c ∈ cols) :
    applyMap (m.filter (fun p => decide (p.1 ∈ cols))) c = applyMap m c := by
  induction m with
  | nil => rfl
  | cons p m ih =>
    rw [List.filter_cons]
    by_cases hp : p.1 ∈ cols
    · rw [if_pos (decide_eq_true hp), applyMap_cons, applyMap_cons, ih]
    · rw [if_neg (by simp [hp]), applyMap_cons, ih]
      have hne : (p.1 == c) = false := by
        rw [beq_eq_false_iff_ne]
        intro he
        exact hp (he ▸ h)
      rw [hne]
      simp

theorem renameStep_cols (cols : List String) (rows : List RowF) :
    (renameStep ⟨cols, rows⟩).cols = renamedCols cols := rfl

theorem projStep_cols (F : Frame) :
    (projStep F).cols = db_columns.filter (fun c => decide (c ∈ F.cols)) := rfl

end EvLoad

namespace EvLoad

/-! ## Claim theorems -/

/-- C1 (counterexample): the claim "a row survives iff its identifier parses
as an integer and its coordinates parse as numbers" is false: the row with
`ID = 7.5` (not an integer) and numeric coordinates survives into the
cleaned set. -/
theorem c1_counterexample : ¬ C1_asWritten := fun h =>
  absurd (h [rowHalf]) (by decide)

/-- C1 (amended): a row survives into the cleaned set iff its identifier and
both coordinates parse as numbers (a fractional identifier survives, its
value truncated toward zero by the `int64` cast); surviving rows are
transformed pointwise and no error is raised for dropped rows. -/
theorem c1_amended (rows : List RowF) :
    load_and_clean_data (some ⟨srcCols, rows⟩) =
      .ok ⟨db_columns, (rows.filter survive).map cleanRowF⟩ :=
  clean_srcCols_eq rows

/-- C2 (counterexample): the claim "a missing or unparseable source value in
a boolean column resolves to false" is false: the boolean-unparseable string
`"no"` resolves to `true` (Python truthiness), end to end through the
pipeline. -/
theorem c2_counterexample :
    (¬ C2_asWritten)
    ∧ cleanedCell (some ⟨srcCols, [rowNo]⟩) 0 "is_operational" =
        some (.boolv true) := by
  constructor
  · intro h
    exact absurd (h (.text "no") rfl) (by decide)
  · decide

/-- C2 (amended): for every row and boolean column, the cleaned value is
exactly the `fillna(False).astype(bool)` coercion of the source cell: always
present and boolean, `false` for missing values, and truthiness for
non-missing values (nonzero numbers and non-empty strings become `true`). -/
theorem c2_amended (r : RowF) (c : String) (hc : c ∈ bool_cols) :
    cleanRowF r c = boolCoerce (r c)
    ∧ (∃ b, boolCoerce (r c) = .boolv b)
    ∧ (r c = .missing → boolCoerce (r c) = .boolv false)
    ∧ (∀ q, r c = .num q → boolCoerce (r c) = .boolv (decide (q ≠ 0)))
    ∧ (∀ s, r c = .text s → boolCoerce (r c) = .boolv (decide (s ≠ ""))) := by
  refine ⟨?_, ?_, ?_, ?_, ?_⟩
  · fin_cases hc <;> rfl
  · cases h : r c <;> exact ⟨_, rfl⟩
  · intro h; rw [h]; rfl
  · intro q h; rw [h]; rfl
  · intro s h; rw [h]; rfl

/-- C2 (witness): the amended claim instantiated at the concrete row whose
`is_free` cell is the unparseable string `"false-ish"`. -/
theorem c2_witness :
    ("is_free" ∈ bool_cols)
    ∧ cleanRowF rowFalseText "is_free" = boolCoerce (rowFalseText "is_free")
    ∧ (rowFalseText "is_free" = .missing →
        boolCoerce (rowFalseText "is_free") = .boolv false) :=
  ⟨by decide, (c2_amended rowFalseText "is_free" (by decide)).1,
    (c2_amended rowFalseText "is_free" (by decide)).2.2.1⟩

/-- C3: when the reconciliation fallback hits a collision, the colliding
stored row is replaced by `mergeRow`, which takes the incoming value on
exactly the ten mutable columns of the `DO UPDATE SET` clause and keeps the
stored value on every other column (pricing, free text, `creation_date`). -/
theorem c3_conflict_updates_only_mutable (tbl : List RowF) (t r : RowF)
    (ht : t ∈ tbl) (hid : rowId t = rowId r) :
    upsert1 tbl r = tbl.map (fun u => if sameId u r then mergeRow u r else u)
    ∧ (∀ c ∈ mutable_cols, mergeRow t r c = r c)
    ∧ (∀ c, c ∉ mutable_cols → mergeRow t r c = t c) := by
  refine ⟨?_, ?_, ?_⟩
  · rw [upsert1, if_pos]
    exact List.any_eq_true.mpr ⟨t, ht, by simp [sameId, hid]⟩
  · intro c hc; rw [mergeRow_eval, if_pos hc]
  · intro c hc; rw [mergeRow_eval, if_neg hc]

/-- C3 (witness): a colliding stored/incoming pair where `city` is taken
from the incoming row while `ac_price_huf_kwh` and `notes` keep their stored
values. -/
theorem c3_witness :
    t3stored ∈ [t3stored] ∧ rowId t3stored = rowId r3incoming
    ∧ mergeRow t3stored r3incoming "city" = r3incoming "city"
    ∧ mergeRow t3stored r3incoming "ac_price_huf_kwh" = t3stored "ac_price_huf_kwh"
    ∧ mergeRow t3stored r3incoming "notes" = t3stored "notes" :=
  ⟨by simp, by decide,
    (c3_conflict_updates_only_mutable [t3stored] t3stored r3incoming
      (by simp) (by decide)).2.1 "city" (by decide),
    (c3_conflict_updates_only_mutable [t3stored] t3stored r3incoming
      (by simp) (by decide)).2.2 "ac_price_huf_kwh" (by decide),
    (c3_conflict_updates_only_mutable [t3stored] t3stored r3incoming
      (by simp) (by decide)).2.2 "notes" (by decide)⟩

/-- C4 (code bug): loading the same two-row batch twice against an empty
table does not reconcile — the first load appends the batch, but the second
load's bulk insert hits the primary-key collision and the raised (wrapped)
integrity error is re-raised as fatal, because the `psycopg2.IntegrityError`
handler guarding the reconciliation fallback never matches it; the table
keeps the first load's rows and the run dies.  Had the fallback been
reached, its merge (`upsertAll`) would have preserved the row count exactly
as the claim states. -/
theorem c4_second_load_fatal :
    load_data_to_database [] b4 = .ok b4
    ∧ load_data_to_database b4 b4 =
        .error "raise: sqlalchemy.exc.IntegrityError (not caught by line 161)"
    ∧ (upsertAll b4 b4).length = b4.length :=
  ⟨rfl, rfl, by decide⟩

/-- C5 (counterexample): the claim "the cleaning pipeline proceeds without
error for any subset of the recognised source columns" is false: the subset
consisting of only `ID` makes the unguarded coordinate `dropna` raise
`KeyError`, which the outer handler turns into a fatal exit. -/
theorem c5_counterexample : ¬ C5_asWritten := by
  intro h
  rcases h ["ID"] [] (by decide) with ⟨G, hG⟩
  have h1 : cleanFails (some ⟨["ID"], []⟩) = true := by decide
  rw [cleanFails, hG] at h1
  exact Bool.false_ne_true h1

/-- C5 (amended): for any subset of source columns that contains `latitude`
and `longitude`, the pipeline succeeds; every recognised present column is
renamed to its canonical name, and a canonical column that did not arise
from the rename is absent downstream. -/
theorem c5_amended (cols : List String) (rows : List RowF)
    (hlat : "latitude" ∈ cols) (hlon : "longitude" ∈ cols) :
    ∃ G, load_and_clean_data (some ⟨cols, rows⟩) = .ok G
      ∧ G.cols = db_columns.filter (fun c => decide (c ∈ renamedCols cols))
      ∧ (renameStep ⟨cols, rows⟩).cols = renamedCols cols
      ∧ (∀ s ∈ cols, applyMap column_mapping s ∈ renamedCols cols)
      ∧ (∀ t, t ∉ renamedCols cols → t ∉ G.cols) := by
  have hmaps : ∀ s ∈ cols, applyMap column_mapping s ∈ renamedCols cols := by
    intro s hs
    rw [renamedCols, ← applyMap_filter_mem column_mapping cols s hs]
    exact List.mem_map_of_mem _ hs
  have hlat2 : "latitude" ∈ renamedCols cols := hmaps "latitude" hlat
  have hlon2 : "longitude" ∈ renamedCols cols := hmaps "longitude" hlon
  have hEcols : (idStep (coerceCols numeric_cols toNumericCell
      (coerceCols date_cols dateCoerce (coerceCols bool_cols boolCoerce
        (renameStep ⟨cols, rows⟩))))).cols = renamedCols cols := by
    rw [idStep_cols, coerceCols_cols, coerceCols_cols, coerceCols_cols,
      renameStep_cols]
  have hE : idStep (coerceCols numeric_cols toNumericCell
      (coerceCols date_cols dateCoerce (coerceCols bool_cols boolCoerce
        (renameStep ⟨cols, rows⟩)))) = ⟨renamedCols cols,
      (idStep (coerceCols numeric_cols toNumericCell
        (coerceCols date_cols dateCoerce (coerceCols bool_cols boolCoerce
          (renameStep ⟨cols, rows⟩))))).rows⟩ := by
    rw [← hEcols]
  have hmain : load_and_clean_data (some ⟨cols, rows⟩) =
      (coordStep (idStep (coerceCols numeric_cols toNumericCell
        (coerceCols date_cols dateCoerce (coerceCols bool_cols boolCoerce
          (renameStep ⟨cols, rows⟩)))))).bind
        (fun df6 => pure (projStep (coerceCols text_cols textClean df6))) := rfl
  rw [hE, coordStep_pos _ _ hlat2 hlon2] at hmain
  have hmain2 : load_and_clean_data (some ⟨cols, rows⟩) =
      .ok (projStep (coerceCols text_cols textClean ⟨renamedCols cols, _⟩)) :=
    hmain.trans rfl
  refine ⟨_, hmain2, ?_, rfl, hmaps, ?_⟩
  · rw [projStep_cols, coerceCols_cols]
  · intro t ht hmem
    rw [projStep_cols, coerceCols_cols] at hmem
    have := (List.mem_filter.mp hmem).2
    exact ht (of_decide_eq_true this)

/-- C5 (witness): the amended claim instantiated at the subset
consisting of `ID`, `latitude` and `longitude` with no rows. -/
theorem c5_witness :
    ("latitude" ∈ ["ID", "latitude", "longitude"])
    ∧ ("longitude" ∈ ["ID", "latitude", "longitude"])
    ∧ ∃ G, load_and_clean_data (some ⟨["ID", "latitude", "longitude"], []⟩) = .ok G
        ∧ G.cols = db_columns.filter
            (fun c => decide (c ∈ renamedCols ["ID", "latitude", "longitude"]))
        ∧ (renameStep ⟨["ID", "latitude", "longitude"], []⟩).cols
            = renamedCols ["ID", "latitude", "longitude"]
        ∧ (∀ s ∈ ["ID", "latitude", "longitude"],
            applyMap column_mapping s ∈ renamedCols ["ID", "latitude", "longitude"])
        ∧ (∀ t, t ∉ renamedCols ["ID", "latitude", "longitude"] → t ∉ G.cols) :=
  ⟨by decide, by decide, c5_amended _ _ (by decide) (by decide)⟩

/-- C6: the reconciliation fallback is atomic — for every failure injection
either every operation succeeded, the transaction committed and the durable
table is the fully merged one (scratch table dropped), or an error is
surfaced and the durable table is exactly the original. -/
theorem c6_fallback_atomic (tbl batch : List RowF) (fs : List Bool) :
    (∃ st, runFallback tbl batch fs = .ok st
      ∧ st.committed = upsertAll tbl batch ∧ st.temp = none)
    ∨ (∃ e st, runFallback tbl batch fs = .error (e, st) ∧ st.committed = tbl) := by
  rcases fs with _ | ⟨f1, fs⟩
  · left; exact ⟨_, rfl, rfl, rfl⟩
  cases f1
  · rcases fs with _ | ⟨f2, fs⟩
    · left; exact ⟨_, rfl, rfl, rfl⟩
    cases f2
    · rcases fs with _ | ⟨f3, fs⟩
      · left; exact ⟨_, rfl, rfl, rfl⟩
      cases f3
      · rcases fs with _ | ⟨f4, fs⟩
        · left; exact ⟨_, rfl, rfl, rfl⟩
        cases f4
        · left; exact ⟨_, rfl, rfl, rfl⟩
        · right; exact ⟨_, _, rfl, rfl⟩
      · right; exact ⟨_, _, rfl, rfl⟩
    · right; exact ⟨_, _, rfl, rfl⟩
  · right; exact ⟨_, _, rfl, rfl⟩

/-- C7: an unresolvable source path makes the loader exit fatally with no
database write: the run returns the stations table unchanged and exit
code 1. -/
theorem c7_source_not_found (tbl : List RowF) :
    load_and_clean_data none = .error "exit(1): CSV file not found"
    ∧ runMain none tbl = (tbl, 1) := ⟨rfl, rfl⟩

/-- C8: a row with a valid id and coordinates is kept even when a date or a
pricing cell fails to parse; the failed cell itself becomes absent in the
cleaned output (dates via `to_datetime` coercion, prices via `to_numeric`
coercion). -/
theorem c8_degrade (r : RowF) (c : String) (hs : survive r = true) :
    cleanRowCount (some ⟨srcCols, [r]⟩) = some 1
    ∧ cleanedCell (some ⟨srcCols, [r]⟩) 0 c = some (cleanRowF r c)
    ∧ (c ∈ date_cols → cleanRowF r c = dateCoerce (r c))
    ∧ (c ∈ date_cols → parseDateCell (r c) = none → cleanRowF r c = .missing)
    ∧ (c ∈ numeric_cols → cleanRowF r c = toNumericCell (r c))
    ∧ (c ∈ numeric_cols → ∀ s, r c = .text s → parseNumText s = none →
        cleanRowF r c = .missing) := by
  have hpipe := clean_srcCols_eq [r]
  have hfil : List.filter survive [r] = [r] := by
    rw [List.filter_cons, hs]; rfl
  have hdate : c ∈ date_cols → cleanRowF r c = dateCoerce (r c) := by
    intro hc; fin_cases hc <;> rfl
  have hnum : c ∈ numeric_cols → cleanRowF r c = toNumericCell (r c) := by
    intro hc; fin_cases hc <;> rfl
  refine ⟨?_, ?_, hdate, ?_, hnum, ?_⟩
  · rw [cleanRowCount, hpipe, hfil]; rfl
  · rw [cleanedCell, hpipe, hfil]; rfl
  · intro hc hp
    rw [hdate hc, dateCoerce, hp]
  · intro hc s hsx hp
    rw [hnum hc, hsx, toNumericCell, hp]

/-- C8 (witness): the degradation claim instantiated at a concrete valid row
whose `last_verified_date` is `"soon"` and whose `ac_price_huf_kwh` is
`"cheap"`. -/
theorem c8_witness :
    survive rowBad = true
    ∧ cleanRowCount (some ⟨srcCols, [rowBad]⟩) = some 1
    ∧ cleanRowF rowBad "last_verified_date" = .missing
    ∧ cleanRowF rowBad "ac_price_huf_kwh" = .missing :=
  ⟨by decide, (c8_degrade rowBad "city" (by decide)).1,
    (c8_degrade rowBad "last_verified_date" (by decide)).2.2.2.1
      (by decide) (by decide),
    (c8_degrade rowBad "ac_price_huf_kwh" (by decide)).2.2.2.2.2
      (by decide) "cheap" (by decide) (by decide)⟩

/-- C9: the spec scenario row (`ID` 7, coordinates 47.5 / 19.05, empty
`is_operational`, `num_charging_points` "2") cleans to exactly one persisted
row with `station_id` 7, the same coordinates, `is_operational` false and
`num_charging_points` 2. -/
theorem c9_scenario :
    cleanedCell (some frame9) 0 "station_id" = some (.num 7)
    ∧ cleanedCell (some frame9) 0 "latitude" = some (.num (mkRat 95 2))
    ∧ cleanedCell (some frame9) 0 "longitude" = some (.num (mkRat 381 20))
    ∧ cleanedCell (some frame9) 0 "is_operational" = some (.boolv false)
    ∧ cleanedCell (some frame9) 0 "num_charging_points" = some (.num 2)
    ∧ cleanRowCount (some frame9) = some 1 := by decide

/-- C10: in every free-text column, a source value reading exactly `"nan"`
is normalised to absent by the text-cleaning step, exactly like a missing
value or an empty string. -/
theorem c10_nan_absent (r : RowF) (c : String) (hc : c ∈ text_cols) :
    cleanRowF r c = textClean (r c)
    ∧ (r c = .text "nan" → cleanRowF r c = .missing)
    ∧ (r c = .text "" → cleanRowF r c = .missing)
    ∧ (r c = .missing → cleanRowF r c = .missing) := by
  have h1 : cleanRowF r c = textClean (r c) := by fin_cases hc <;> rfl
  refine ⟨h1, ?_, ?_, ?_⟩ <;> intro h <;> rw [h1, h] <;> rfl

/-- C10 (witness): the `"nan"` normalisation at a concrete row whose `notes`
cell is the literal string `"nan"`. -/
theorem c10_witness :
    ("notes" ∈ text_cols)
    ∧ rowNanNotes "notes" = .text "nan"
    ∧ cleanRowF rowNanNotes "notes" = .missing :=
  ⟨by decide, by decide,
    (c10_nan_absent rowNanNotes "notes" (by decide)).2.1 (by decide)⟩

end EvLoad
